import Mathlib

/-!
Verification of the live-broadcast subsystem of server.py: the connection
registry and loop spawning in ConnectionManager.connect and disconnect,
the broadcast loop ConnectionManager.stream_prices, the quote fetcher
fetch_quote, and the message handling of websocket_endpoint, shallowly
embedded as pure functions plus an event-step transition system for the
connect and disconnect lifecycle.
-/

namespace YahooLive

/-- JSON value that can populate the interval field of an inbound
message; numbers are modelled as integers. -/
inductive JVal where
  | num (n : Int)
  | str (s : String)
  | null
  deriving DecidableEq, Repr

/-- Decimal digit test on a character code. -/
def isDigitChar (c : Char) : Bool := 48 ≤ c.toNat && c.toNat ≤ 57

/-- Accumulate a decimal number from a character list; any non-digit
makes the whole conversion fail. -/
def natFromChars : List Char → Nat → Option Nat
  | [], acc => some acc
  | c :: cs, acc =>
    if isDigitChar c then natFromChars cs (acc * 10 + (c.toNat - 48))
    else none

/-- Integer parsing of a string: an optional leading minus sign followed
by at least one decimal digit; everything else fails. -/
def strToInt (s : String) : Option Int :=
  match s.data with
  | [] => none
  | c :: cs =>
    if c.toNat = 45 then
      match cs with
      | [] => none
      | _ => Option.map (fun n => -(n : Int)) (natFromChars cs 0)
    else Option.map (fun n => (n : Int)) (natFromChars (c :: cs) 0)

/-- Model of the Python int() conversion applied in websocket_endpoint
(server.py line 114): integers pass through, strings that spell an
integer parse, anything else raises (modelled as none). -/
def pyInt : JVal → Option Int
  | JVal.num n => some n
  | JVal.str s => strToInt s
  | JVal.null => none

/-- The shared subscription state: ConnectionManager.symbols and
ConnectionManager.interval (server.py lines 69-70). -/
structure SubState where
  symbols : List String
  interval : Int
  deriving DecidableEq, Repr

/-- Defaults set in ConnectionManager.init (server.py lines 66-70). -/
def initialSub : SubState := { symbols := ["^GSPC", "^NDX"], interval := 15 }

/-- A decoded inbound JSON message.  Each field of interest is optional,
since data.get returns the current manager attribute when the key is
missing. -/
structure Msg where
  type : String
  symbols : Option (List String)
  interval : Option JVal
  deriving DecidableEq, Repr

/-- Embedding of the subscribe handling in websocket_endpoint (server.py
lines 112-114).  The two assignments run with no await between them; the
int() call can raise (modelled: pyInt gives none), and the exception
occurs after the symbols assignment, so the false flag pairs with a state
whose symbols were already replaced while the interval kept its old
value.  When the interval key is absent, int(manager.interval) is applied
to the current integer and always succeeds. -/
def applySubscribe (st : SubState) (m : Msg) : SubState × Bool :=
  if m.type = "subscribe" then
    let st1 : SubState := { st with symbols := m.symbols.getD st.symbols }
    match m.interval with
    | none => (st1, true)
    | some v =>
      match pyInt v with
      | some n => ({ st1 with interval := n }, true)
      | none => (st1, false)
  else (st, true)

/-- Outcome of the yf.download call inside fetch_quote: a non-empty frame
carrying a last Close and timestamp, an empty frame, or a raised
exception with its text. -/
inductive FetchResult where
  | ok (price : Int) (timestamp : String)
  | noData
  | exn (msg : String)
  deriving DecidableEq, Repr

/-- The dict returned by fetch_quote, every key optional since the
success and failure shapes carry different keys. -/
structure QuoteDict where
  symbol : String
  price : Option Int
  currency : Option String
  timestamp : Option String
  error : Option String
  deriving DecidableEq, Repr

/-- Embedding of fetch_quote (server.py lines 46-63): a non-empty frame
yields symbol, price, the fixed placeholder currency "N/A" and the
timestamp; an empty frame yields symbol and error "No data returned";
a raised exception is caught by the except clause and yields symbol and
the exception text.  The function is total: every outcome returns a
dict, none raises. -/
def fetch_quote (symbol : String) : FetchResult → QuoteDict
  | FetchResult.ok p ts =>
    { symbol := symbol, price := some p, currency := some "N/A",
      timestamp := some ts, error := none }
  | FetchResult.noData =>
    { symbol := symbol, price := none, currency := none,
      timestamp := none, error := some "No data returned" }
  | FetchResult.exn m =>
    { symbol := symbol, price := none, currency := none,
      timestamp := none, error := some m }

/-- Whether a fetch outcome is a failure (empty frame or exception). -/
def fetchFails : FetchResult → Bool
  | FetchResult.ok _ _ => false
  | FetchResult.noData => true
  | FetchResult.exn _ => true

/-- A registered websocket, with an oracle bit recording whether
ws.send_text raises for it during the cycle under study. -/
structure Conn where
  id : Nat
  sendFails : Bool
  deriving DecidableEq, Repr

/-- The manager state seen by one broadcast cycle. -/
structure MState where
  conns : List Conn
  sub : SubState
  deriving DecidableEq, Repr

/-- Folding a list of inbound subscribe messages into the subscription
state, as the handler tasks scheduled at the awaits inside a cycle
would. -/
def applyUpdates (st : SubState) (ms : List Msg) : SubState :=
  ms.foldl (fun s m => (applySubscribe s m).1) st

/-- What one broadcast cycle produced: the outbound data array, the
(connection id, payload) deliveries, the duration passed to
asyncio.sleep, and the manager state at the next cycle check. -/
structure CycleResult where
  updates : List QuoteDict
  delivered : List (Nat × List QuoteDict)
  sleptFor : Int
  final : MState
  deriving DecidableEq, Repr

/-- One iteration of ConnectionManager.stream_prices (server.py lines
84-99), with the interleavings of the cooperative event loop made
explicit: fetchEvs are the subscribe messages handler tasks process while
the cycle awaits its per-symbol fetches, sendEvs those processed while it
awaits its sends.  The for loop over self.symbols holds the list object
read at loop entry, so a handler reassigning manager.symbols mid-cycle
does not change which symbols this cycle fetches; json.dumps serializes
once and the same msg string goes to every connection of the
list(self.connections) snapshot; a send failure removes that connection
from the live set and delivers nothing to it; finally
asyncio.sleep(self.interval) reads the interval attribute at sleep
time. -/
def runCycle (st : MState) (fetch : String → FetchResult)
    (fetchEvs sendEvs : List Msg) : CycleResult :=
  let updates := st.sub.symbols.map (fun s => fetch_quote s (fetch s))
  let subAfterFetch := applyUpdates st.sub fetchEvs
  let connsAfter := st.conns.filter (fun c => !c.sendFails)
  let delivered := connsAfter.map (fun c => (c.id, updates))
  let subAtSleep := applyUpdates subAfterFetch sendEvs
  { updates := updates, delivered := delivered,
    sleptFor := subAtSleep.interval,
    final := { conns := connsAfter, sub := subAtSleep } }

/-- The symbol field always echoes the input symbol. -/
lemma fetch_quote_symbol (s : String) (r : FetchResult) :
    (fetch_quote s r).symbol = s := by
  cases r <;> rfl

/-- A failing fetch outcome always carries an error marker. -/
lemma fetch_quote_error_of_fails (s : String) (r : FetchResult)
    (h : fetchFails r = true) : (fetch_quote s r).error.isSome = true := by
  cases r with
  | ok p ts => simp [fetchFails] at h
  | noData => rfl
  | exn m => rfl

/-- Mapping the symbol projection over the fetched entries recovers the
input symbol list. -/
lemma map_symbol_fetch (l : List String) (fetch : String → FetchResult) :
    (l.map (fun s => fetch_quote s (fetch s))).map QuoteDict.symbol = l := by
  induction l with
  | nil => rfl
  | cons a tl ih => simp [fetch_quote_symbol, ih]

/-- C10: for every input symbol and every fetch outcome, the dict
returned by fetch_quote echoes the symbol, and is either the full success
shape — price present, currency the fixed placeholder "N/A", timestamp
present, no error — or an error entry with no price; never both. -/
theorem C10_fetch_quote_shape (s : String) (r : FetchResult) :
    (fetch_quote s r).symbol = s ∧
    (((fetch_quote s r).price.isSome = true ∧
      (fetch_quote s r).currency = some "N/A" ∧
      (fetch_quote s r).timestamp.isSome = true ∧
      (fetch_quote s r).error = none) ∨
     ((fetch_quote s r).error.isSome = true ∧
      (fetch_quote s r).price = none)) := by
  cases r with
  | ok p ts => exact ⟨rfl, Or.inl ⟨rfl, rfl, rfl, rfl⟩⟩
  | noData => exact ⟨rfl, Or.inr ⟨rfl, rfl⟩⟩
  | exn m => exact ⟨rfl, Or.inr ⟨rfl, rfl⟩⟩

/-- C8: the sequence of symbols in the outbound message of a cycle equals
the subscription snapshot taken at cycle start, in the same order, for
every schedule of mid-cycle subscribe messages — the for loop iterates
the list object read at cycle start, which handler reassignments of
manager.symbols never mutate. -/
theorem C8_message_symbols_snapshot (st : MState)
    (fetch : String → FetchResult) (fetchEvs sendEvs : List Msg) :
    (runCycle st fetch fetchEvs sendEvs).updates.map QuoteDict.symbol
      = st.sub.symbols :=
  map_symbol_fetch st.sub.symbols fetch

/-- The registry together with the number of live stream_prices task
instances. -/
structure SysState where
  conns : List Nat
  loops : Nat
  deriving DecidableEq, Repr

/-- Scheduler events of the connection lifecycle: a fresh client
connecting (ConnectionManager.connect, server.py lines 72-76), a client
disconnecting (ConnectionManager.disconnect, lines 78-80), and one live
loop instance reaching its while self.connections check (line 84). -/
inductive Ev where
  | connect (c : Nat)
  | disconnect (c : Nat)
  | loopCheck
  deriving DecidableEq, Repr

/-- connect performs a set add and then spawns stream_prices exactly when
len(self.connections) == 1 afterwards; disconnect removes the websocket
if present; at a loopCheck one running instance exits when the registry
is empty and otherwise runs another cycle. -/
def stepEv (st : SysState) : Ev → SysState
  | Ev.connect c =>
    let cs := if c ∈ st.conns then st.conns else c :: st.conns
    { conns := cs,
      loops := if cs.length = 1 then st.loops + 1 else st.loops }
  | Ev.disconnect c => { st with conns := st.conns.erase c }
  | Ev.loopCheck =>
    if st.loops = 0 then st
    else if st.conns = [] then { st with loops := st.loops - 1 }
    else st

/-- The process starts with an empty registry and no loop task. -/
def initSys : SysState := { conns := [], loops := 0 }

/-- Run a sequence of lifecycle events from the initial state. -/
def runEvents (tr : List Ev) : SysState := tr.foldl stepEv initSys

/-- The property claim C1 asserts of a state: the loop is running exactly
when the registry is non-empty, and at most one instance is active. -/
def loopOk (st : SysState) : Prop :=
  (1 ≤ st.loops ↔ st.conns ≠ []) ∧ st.loops ≤ 1

/-- Non-empty registry implies at least one live loop instance. -/
def loopLive (st : SysState) : Prop := st.conns ≠ [] → 1 ≤ st.loops

lemma stepEv_loopLive (st : SysState) (e : Ev) (h : loopLive st) :
    loopLive (stepEv st e) := by
  cases e with
  | connect c =>
    unfold loopLive stepEv
    by_cases hc : c ∈ st.conns
    · simp only [hc, if_true]
      intro hne
      split
      · omega
      · exact h hne
    · simp only [hc, if_false]
      intro _
      split
      · omega
      · next hlen =>
        have hne : st.conns ≠ [] := by
          intro h0
          simp [h0] at hlen
        exact h hne
  | disconnect c =>
    unfold loopLive at *
    simp only [stepEv]
    intro hne
    apply h
    intro h0
    simp [h0] at hne
  | loopCheck =>
    unfold loopLive at *
    simp only [stepEv]
    split
    · exact h
    · split
      · next hempty =>
        intro hne
        exact absurd hempty hne
      · exact h

lemma foldl_loopLive (tr : List Ev) :
    ∀ st : SysState, loopLive st → loopLive (tr.foldl stepEv st) := by
  induction tr with
  | nil => intro st h; exact h
  | cons e tl ih => intro st h; exact ih (stepEv st e) (stepEv_loopLive st e h)

/-- C1 fails as stated: after connect 0, disconnect 0, connect 1 — a
reconnect while the first stream_prices instance is still between its
registry checks — two loop instances are live at once; and already after
connect 0, disconnect 0 the single instance is still live although the
registry is empty. -/
theorem C1_counterexample :
    ¬ loopOk (runEvents [Ev.connect 0, Ev.disconnect 0, Ev.connect 1]) ∧
    ¬ loopOk (runEvents [Ev.connect 0, Ev.disconnect 0]) ∧
    (runEvents [Ev.connect 0, Ev.disconnect 0, Ev.connect 1]).loops = 2 ∧
    (runEvents [Ev.connect 0, Ev.disconnect 0]).conns = [] ∧
    (runEvents [Ev.connect 0, Ev.disconnect 0]).loops = 1 := by
  unfold loopOk
  decide

/-- C1 amended: one direction survives — after every sequence of
lifecycle events, a non-empty registry implies at least one live loop
instance; the converse and the uniqueness of the instance both fail, as
the counterexample trace shows. -/
theorem C1_loop_live_when_nonempty (tr : List Ev)
    (h : (runEvents tr).conns ≠ []) : 1 ≤ (runEvents tr).loops := by
  have hinit : loopLive initSys := by
    intro hne
    exact absurd rfl hne
  exact foldl_loopLive tr initSys hinit h

/-- Witness for C1: a single connect yields a live loop. -/
theorem C1_loop_live_when_nonempty_witness :
    1 ≤ (runEvents [Ev.connect 0]).loops :=
  C1_loop_live_when_nonempty [Ev.connect 0] (by decide)

/-- A subscribe message whose interval value int() cannot convert. -/
def badIntervalMsg : Msg :=
  { type := "subscribe", symbols := some ["AAPL"],
    interval := some (JVal.str "soon") }

/-- C2 fails as stated: a subscribe message whose interval is not
int-convertible raises after manager.symbols has already been replaced,
so the failed message does not leave the state unchanged — it leaves the
new symbols paired with the old interval. -/
theorem C2_counterexample :
    (applySubscribe initialSub badIntervalMsg).2 = false ∧
    (applySubscribe initialSub badIntervalMsg).1 ≠ initialSub ∧
    (applySubscribe initialSub badIntervalMsg).1 =
      { symbols := ["AAPL"], interval := 15 } := by
  decide

/-- C2 amended: a successful subscribe message replaces symbols and
interval with no intermediate state visible to other tasks (no await
separates the two assignments); but when the interval conversion fails,
the symbols assignment has already taken effect, so the resulting state
carries the new symbols and the old interval. -/
theorem C2_failed_subscribe_torn (st : SubState) (m : Msg)
    (htype : m.type = "subscribe")
    (hfail : (applySubscribe st m).2 = false) :
    (applySubscribe st m).1 =
      { symbols := m.symbols.getD st.symbols, interval := st.interval } := by
  cases m with
  | mk t syms iv =>
    simp only at htype
    subst htype
    cases iv with
    | none => simp [applySubscribe] at hfail
    | some v =>
      cases hv : pyInt v with
      | none => simp [applySubscribe, hv]
      | some n => simp [applySubscribe, hv] at hfail

/-- Witness for C2: the failing message of the counterexample. -/
theorem C2_failed_subscribe_torn_witness :
    (applySubscribe initialSub badIntervalMsg).1 =
      { symbols := badIntervalMsg.symbols.getD initialSub.symbols,
        interval := initialSub.interval } :=
  C2_failed_subscribe_torn initialSub badIntervalMsg (by decide) (by decide)

/-- Inbound events one turn of the websocket receive loop can see. -/
inductive Inbound where
  | disconnected
  | malformed
  | decoded (m : Msg)
  deriving DecidableEq, Repr

/-- Whether the handler coroutine keeps listening or has ended. -/
inductive Outcome where
  | listening
  | terminated
  deriving DecidableEq, Repr

/-- Result of one turn of the receive loop: the registry, the shared
subscription state, and the handler status. -/
structure HandlerResult where
  reg : List Nat
  sub : SubState
  outcome : Outcome
  deriving DecidableEq, Repr

/-- Embedding of one turn of the receive loop of websocket_endpoint
(server.py lines 105-116) for connection c.  A WebSocketDisconnect is
caught by the except clause and deregisters c.  An undecodable message
makes json.loads raise json.JSONDecodeError, which the except clause
(WebSocketDisconnect only) does not catch, so the handler coroutine dies
without touching the registry.  A decoded message is applied to the
shared subscription state; a failing int() likewise escapes uncaught and
ends the handler. -/
def handlerStep (reg : List Nat) (st : SubState) (c : Nat) :
    Inbound → HandlerResult
  | Inbound.disconnected =>
    { reg := reg.erase c, sub := st, outcome := Outcome.terminated }
  | Inbound.malformed =>
    { reg := reg, sub := st, outcome := Outcome.terminated }
  | Inbound.decoded m =>
    match applySubscribe st m with
    | (st2, true) => { reg := reg, sub := st2, outcome := Outcome.listening }
    | (st2, false) => { reg := reg, sub := st2, outcome := Outcome.terminated }

/-- C3 fails as stated: a malformed message terminates the handler of
connection 0, yet 0 is still registered afterwards — the connection is
not deregistered. -/
theorem C3_counterexample :
    (handlerStep [0] initialSub 0 Inbound.malformed).outcome
      = Outcome.terminated ∧
    0 ∈ (handlerStep [0] initialSub 0 Inbound.malformed).reg := by
  decide

/-- C3 amended: a malformed message terminates that handler but does NOT
deregister the connection — registry and subscription state are returned
unchanged, so the broadcast loop and the other connections are indeed
unaffected, while the stale entry is only removed later, when a broadcast
send to it fails. -/
theorem C3_malformed_keeps_registration (reg : List Nat) (st : SubState)
    (c : Nat) :
    handlerStep reg st c Inbound.malformed =
      { reg := reg, sub := st, outcome := Outcome.terminated } := rfl

/-- C4 fails as stated: websocket_endpoint assigns int(interval) with no
validation, so a non-positive interval replaces the previous value
instead of being rejected. -/
theorem C4_counterexample :
    (applySubscribe initialSub
      { type := "subscribe", symbols := none,
        interval := some (JVal.num 0) }).1.interval = 0 ∧
    (applySubscribe initialSub
      { type := "subscribe", symbols := none,
        interval := some (JVal.num (-5)) }) =
      ({ symbols := ["^GSPC", "^NDX"], interval := -5 }, true) := by
  decide

/-- C4 amended: no validation is performed — every int-convertible
interval value n, the non-positive ones included, is accepted and stored
verbatim, so interval > 0 is not an invariant of the subscription
state. -/
theorem C4_nonpositive_interval_accepted (st : SubState) (n : Int)
    (_hn : n ≤ 0) :
    (applySubscribe st
      { type := "subscribe", symbols := none,
        interval := some (JVal.num n) }).1.interval = n ∧
    (applySubscribe st
      { type := "subscribe", symbols := none,
        interval := some (JVal.num n) }).2 = true := by
  constructor <;> simp [applySubscribe, pyInt]

/-- Witness for C4: interval -5 is stored. -/
theorem C4_nonpositive_interval_accepted_witness :
    (applySubscribe initialSub
      { type := "subscribe", symbols := none,
        interval := some (JVal.num (-5)) }).1.interval = -5 ∧
    (applySubscribe initialSub
      { type := "subscribe", symbols := none,
        interval := some (JVal.num (-5)) }).2 = true :=
  C4_nonpositive_interval_accepted initialSub (-5) (by decide)

/-- A manager state with a single healthy connection and the default
subscription. -/
def oneConn : MState :=
  { conns := [{ id := 0, sendFails := false }], sub := initialSub }

/-- A subscribe message setting the interval to 5. -/
def fiveMsg : Msg :=
  { type := "subscribe", symbols := none, interval := some (JVal.num 5) }

/-- C5 fails as stated: stream_prices passes self.interval to
asyncio.sleep re-reading the attribute at sleep time, so an interval
change processed while the cycle awaited its sends already governs the
same cycle, not only the subsequent one — with the default interval 15,
a mid-cycle change to 5 makes this cycle sleep 5. -/
theorem C5_counterexample :
    oneConn.sub.interval = 15 ∧
    (runCycle oneConn (fun _ => FetchResult.noData) [] [fiveMsg]).sleptFor
      = 5 ∧
    (runCycle oneConn (fun _ => FetchResult.noData) [] [fiveMsg]).sleptFor
      ≠ oneConn.sub.interval := by
  decide

/-- C5 amended: the duration slept at the end of a cycle equals the
interval value current when the sleep begins — that is, the cycle-final
value after all subscribe messages processed during the fetch and send
phases — and it coincides with the cycle-start value exactly in the case
that no update arrived during the cycle. -/
theorem C5_sleep_reads_final_interval (st : MState)
    (fetch : String → FetchResult) (fetchEvs sendEvs : List Msg) :
    (runCycle st fetch fetchEvs sendEvs).sleptFor =
      (runCycle st fetch fetchEvs sendEvs).final.sub.interval ∧
    (fetchEvs = [] → sendEvs = [] →
      (runCycle st fetch fetchEvs sendEvs).sleptFor = st.sub.interval) := by
  refine ⟨rfl, ?_⟩
  rintro rfl rfl
  rfl

/-- Witness for C5: with no mid-cycle updates the default 15 is slept. -/
theorem C5_sleep_reads_final_interval_witness :
    (runCycle oneConn (fun _ => FetchResult.noData) [] []).sleptFor = 15 := by
  have h := C5_sleep_reads_final_interval oneConn
    (fun _ => FetchResult.noData) [] []
  exact h.2 rfl rfl

/-- C6: fetch_quote is total — every outcome of the underlying fetch,
a raised exception included, is returned as a dict whose error field
encodes the failure — and within a cycle each symbol is fetched
independently: a failing symbol X still yields an error-tagged entry,
every snapshot symbol keeps an entry of its own, and the message length
equals the snapshot length, so no cycle is aborted by one failure. -/
theorem C6_per_symbol_failure_isolated (st : MState)
    (fetch : String → FetchResult) (fetchEvs sendEvs : List Msg)
    (X : String) (hX : X ∈ st.sub.symbols)
    (hfail : fetchFails (fetch X) = true) :
    (∃ q ∈ (runCycle st fetch fetchEvs sendEvs).updates,
        q.symbol = X ∧ q.error.isSome = true) ∧
    (∀ Y ∈ st.sub.symbols,
        ∃ q ∈ (runCycle st fetch fetchEvs sendEvs).updates,
          q.symbol = Y) ∧
    (runCycle st fetch fetchEvs sendEvs).updates.length
      = st.sub.symbols.length := by
  have hup : (runCycle st fetch fetchEvs sendEvs).updates
      = st.sub.symbols.map (fun s => fetch_quote s (fetch s)) := rfl
  refine ⟨?_, ?_, ?_⟩
  · refine ⟨fetch_quote X (fetch X), ?_, fetch_quote_symbol X (fetch X),
      fetch_quote_error_of_fails X (fetch X) hfail⟩
    rw [hup]
    exact List.mem_map_of_mem _ hX
  · intro Y hY
    refine ⟨fetch_quote Y (fetch Y), ?_, fetch_quote_symbol Y (fetch Y)⟩
    rw [hup]
    exact List.mem_map_of_mem _ hY
  · rw [hup]
    exact List.length_map _ _

/-- A fetch oracle failing exactly for the first default symbol. -/
def failGspc : String → FetchResult := fun s =>
  if s = "^GSPC" then FetchResult.exn "boom" else FetchResult.ok 100 "t"

/-- Witness for C6: the oracle that fails for GSPC only. -/
theorem C6_per_symbol_failure_isolated_witness :
    (∃ q ∈ (runCycle oneConn failGspc [] []).updates,
        q.symbol = "^GSPC" ∧ q.error.isSome = true) ∧
    (∀ Y ∈ oneConn.sub.symbols,
        ∃ q ∈ (runCycle oneConn failGspc [] []).updates, q.symbol = Y) ∧
    (runCycle oneConn failGspc [] []).updates.length
      = oneConn.sub.symbols.length :=
  C6_per_symbol_failure_isolated oneConn failGspc [] [] "^GSPC"
    (by decide) (by decide)

/-- C7: iterating the list(self.connections) snapshot with a per-socket
try/except means a send failure affects only that socket — the failing
connection C is gone from the live set the loop will see at the next
cycle check, every snapshot connection whose own send works received the
payload, and all delivered payloads are the single json.dumps result of
the cycle, hence byte-for-byte identical. -/
theorem C7_send_failure_isolated (st : MState)
    (fetch : String → FetchResult) (fetchEvs sendEvs : List Msg)
    (C : Conn) (_hC : C ∈ st.conns) (hfail : C.sendFails = true) :
    C ∉ (runCycle st fetch fetchEvs sendEvs).final.conns ∧
    (∀ D ∈ st.conns, D.sendFails = false →
      (D.id, (runCycle st fetch fetchEvs sendEvs).updates) ∈
        (runCycle st fetch fetchEvs sendEvs).delivered) ∧
    (∀ p ∈ (runCycle st fetch fetchEvs sendEvs).delivered,
      p.2 = (runCycle st fetch fetchEvs sendEvs).updates) := by
  have hconns : (runCycle st fetch fetchEvs sendEvs).final.conns
      = st.conns.filter (fun c => !c.sendFails) := rfl
  have hdel : (runCycle st fetch fetchEvs sendEvs).delivered
      = (st.conns.filter (fun c => !c.sendFails)).map
          (fun c => (c.id, (runCycle st fetch fetchEvs sendEvs).updates))
      := rfl
  refine ⟨?_, ?_, ?_⟩
  · rw [hconns]
    intro hmem
    have hkeep := (List.mem_filter.mp hmem).2
    simp [hfail] at hkeep
  · intro D hD hok
    rw [hdel]
    refine List.mem_map_of_mem _ ?_
    exact List.mem_filter.mpr ⟨hD, by simp [hok]⟩
  · intro p hp
    rw [hdel] at hp
    rcases List.mem_map.mp hp with ⟨c, _, hc⟩
    rw [← hc]

/-- Manager state with one connection whose send fails and one healthy
connection. -/
def twoConns : MState :=
  { conns := [{ id := 0, sendFails := true }, { id := 1, sendFails := false }],
    sub := initialSub }

/-- Witness for C7: connection 0 fails, connection 1 still receives. -/
theorem C7_send_failure_isolated_witness :
    ({ id := 0, sendFails := true } : Conn) ∉
      (runCycle twoConns (fun _ => FetchResult.noData) [] []).final.conns ∧
    (∀ D ∈ twoConns.conns, D.sendFails = false →
      (D.id, (runCycle twoConns (fun _ => FetchResult.noData) [] []).updates) ∈
        (runCycle twoConns (fun _ => FetchResult.noData) [] []).delivered) ∧
    (∀ p ∈ (runCycle twoConns (fun _ => FetchResult.noData) [] []).delivered,
      p.2 = (runCycle twoConns (fun _ => FetchResult.noData) [] []).updates) :=
  C7_send_failure_isolated twoConns (fun _ => FetchResult.noData) [] []
    { id := 0, sendFails := true } (by decide) (by decide)

/-- C9: fields absent from a message leave the corresponding subscription
fields unchanged — data.get falls back to the current manager attribute —
and a message whose type is not subscribe changes nothing at all. -/
theorem C9_absent_fields_unchanged (st : SubState) (m : Msg) :
    (m.type ≠ "subscribe" → applySubscribe st m = (st, true)) ∧
    (m.symbols = none →
      (applySubscribe st m).1.symbols = st.symbols) ∧
    (m.interval = none →
      (applySubscribe st m).1.interval = st.interval ∧
      (applySubscribe st m).2 = true) := by
  refine ⟨?_, ?_, ?_⟩
  · intro h
    simp [applySubscribe, h]
  · intro h
    by_cases ht : m.type = "subscribe"
    · cases hI : m.interval with
      | none => simp [applySubscribe, ht, h, hI]
      | some v =>
        cases hv : pyInt v <;> simp [applySubscribe, ht, h, hI, hv]
    · simp [applySubscribe, ht]
  · intro h
    by_cases ht : m.type = "subscribe"
    · simp [applySubscribe, ht, h]
    · simp [applySubscribe, ht]

/-- A message of an unrecognized type with no fields. -/
def pingMsg : Msg := { type := "ping", symbols := none, interval := none }

/-- Witness for C9: a ping message with both fields absent changes
nothing. -/
theorem C9_absent_fields_unchanged_witness :
    applySubscribe initialSub pingMsg = (initialSub, true) ∧
    (applySubscribe initialSub pingMsg).1.symbols = initialSub.symbols ∧
    (applySubscribe initialSub pingMsg).1.interval = initialSub.interval := by
  have h := C9_absent_fields_unchanged initialSub pingMsg
  exact ⟨h.1 (by decide), h.2.1 rfl, (h.2.2 rfl).1⟩

end YahooLive
